import Mathlib

/-!
Shallow embedding of the openpanel-rust-sdk tracker (src/lib.rs,
src/sdk/mod.rs, src/sdk/user.rs) and proofs about its behaviour.

Modelling choices, all driven by the source:
* `HashMap<String, String>` is modelled as an association list `Props`
  whose operations (`hmInsert`, `pExtend`) have the lookup semantics of
  the Rust standard library map: `insert` replaces an existing binding,
  `extend` inserts every binding of the argument, so later insertions
  win.  Map equality is observed through `pLookup`.
* The HTTP transport is replaced by recording: a call result carries the
  envelope that would have been POSTed (on success) together with the
  number of transport calls performed, so "zero network I/O" claims are
  statements about that counter.
* `serde_json` envelope construction (`json!` literals) is modelled by
  the inductive `Payload`/`Envelope` mirroring exactly the fields each
  `json!` literal in the source builds; the lowercase wire tag of
  `TrackType` (serde `rename_all = "lowercase"`) is `TrackType.wireTag`.
* External error payloads (`serde_json::Error`, `reqwest::Error`, env
  errors) are opaque, so the corresponding `TrackerError` variants are
  modelled payload-free.
-/

namespace OpenPanel

/-- Property sets: `HashMap<String, String>` as an association list. -/
abbrev Props := List (String × String)

/-- Lookup in a property set (the unique binding of a key, first match). -/
def pLookup : Props → String → Option String
  | [], _ => none
  | (k, v) :: rest, q => if k = q then some v else pLookup rest q

/-- The keys of a property set. -/
def pKeys (m : Props) : List String := m.map Prod.fst

/-- Remove every binding of key `k` (helper for `hmInsert`). -/
def hmRemove : Props → String → Props
  | [], _ => []
  | e :: rest, k => if e.1 = k then hmRemove rest k else e :: hmRemove rest k

/-- Rust `HashMap::insert`: bind `k` to `v`, replacing any previous binding. -/
def hmInsert (m : Props) (k v : String) : Props :=
  (k, v) :: hmRemove m k

/-- Rust `HashMap::extend`: insert every binding of `g` into `p` in order, so
`g`'s bindings override `p`'s on key collision. -/
def pExtend (p : Props) : Props → Props
  | [] => p
  | e :: rest => pExtend (hmInsert p e.1 e.2) rest

/-- Rust `reqwest::header::HeaderName::from_str` canonicalises header names to
lowercase; this models that canonicalisation. -/
def lowerName (s : String) : String :=
  String.mk (s.toList.map Char.toLower)

/-- Rust `HeaderMap::insert` through `HeaderName::from_str`: the stored key is
the lowercased name, and insertion replaces any previous binding. -/
def headerInsert (hs : Props) (key value : String) : Props :=
  hmInsert hs (lowerName key) value

/-- The error enum `TrackerError` of src/lib.rs.  Variants wrapping
external error types are modelled payload-free. -/
inductive TrackerError where
  | EnvVar
  | Env
  | NotAuthorized
  | TooManyRequests
  | Internal
  | Request
  | Serializing
  | HeaderName
  | HeaderValue
  | Disabled
  | Filtered
deriving DecidableEq, Repr

/-- The event-kind enum `TrackType` of src/sdk/mod.rs. -/
inductive TrackType where
  | Decrement
  | Identify
  | Increment
  | Track
deriving DecidableEq, Repr

/-- serde `rename_all = "lowercase"`: the wire tag of an event kind. -/
def TrackType.wireTag : TrackType → String
  | .Decrement => "decrement"
  | .Identify => "identify"
  | .Increment => "increment"
  | .Track => "track"

/-- The `IdentifyUser` struct of src/sdk/user.rs. -/
structure IdentifyUser where
  profile_id : String
  email : String
  first_name : String
  last_name : String
  properties : Props
deriving DecidableEq, Repr

/-- serde `rename_all = "camelCase"`: split a snake_case identifier at
underscores (helper for `camelCase`). -/
def splitUnderscore : List Char → List (List Char)
  | [] => [[]]
  | c :: rest =>
    if c = '_' then [] :: splitUnderscore rest
    else
      match splitUnderscore rest with
      | [] => [[c]]
      | w :: ws => (c :: w) :: ws

/-- Capitalise the first character of a word (helper for `camelCase`). -/
def capFirst : List Char → List Char
  | [] => []
  | c :: rest => c.toUpper :: rest

/-- serde's camelCase field renaming: drop underscores, capitalise each
word after the first. -/
def camelCase (s : String) : String :=
  match splitUnderscore s.toList with
  | [] => ""
  | w :: ws => String.mk (w ++ (ws.map capFirst).flatten)

/-- The field names `IdentifyUser` serialises to, in declaration order,
under `#[serde(rename_all = "camelCase")]`. -/
def IdentifyUser.serializedKeys : List String :=
  ["profile_id", "email", "first_name", "last_name", "properties"].map camelCase

/-- The kind-specific body built by each `json!` literal in
src/sdk/mod.rs. -/
inductive Payload where
  | trackBody (name : String) (properties : Props)
  | revenueBody (name : String) (amount : Int) (properties : Props)
  | identifyBody (user : IdentifyUser)
  | counterBody (profileId : String) (property : String) (value : Int)
deriving DecidableEq, Repr

/-- The wire envelope `{ "type": ..., "payload": ... }`. -/
structure Envelope where
  type : TrackType
  payload : Payload
deriving DecidableEq, Repr

/-- The `properties` field of an envelope's payload, when present. -/
def Envelope.payloadProps : Envelope → Option Props
  | ⟨_, .trackBody _ ps⟩ => some ps
  | ⟨_, .revenueBody _ _ ps⟩ => some ps
  | ⟨_, .identifyBody u⟩ => some u.properties
  | ⟨_, .counterBody _ _ _⟩ => none

/-- Decidable equality for `Except`, for evaluating call results. -/
instance exceptDecEq {ε α : Type} [DecidableEq ε] [DecidableEq α] :
    DecidableEq (Except ε α) := fun a b =>
  match a, b with
  | .error e1, .error e2 =>
    if h : e1 = e2 then .isTrue (by rw [h])
    else .isFalse fun hc => h (Except.noConfusion hc id)
  | .error _, .ok _ => .isFalse fun hc => Except.noConfusion hc
  | .ok _, .error _ => .isFalse fun hc => Except.noConfusion hc
  | .ok a1, .ok a2 =>
    if h : a1 = a2 then .isTrue (by rw [h])
    else .isFalse fun hc => h (Except.noConfusion hc id)

/-- Outcome of a tracking call: the result (a successful call carries
the envelope the transport would POST) and the number of transport calls
performed. -/
structure CallResult where
  result : Except TrackerError Envelope
  transportCalls : Nat
deriving DecidableEq, Repr

/-- The `Tracker` struct of src/sdk/mod.rs. -/
structure Tracker where
  api_url : String
  client_id : String
  client_secret : String
  headers : Props
  global_props : Props
  disabled : Bool
deriving DecidableEq, Repr

/-- Source `Tracker::try_new_from_env` after the three env values have been
read successfully: fresh headers, no globals, enabled. -/
def Tracker.mk_from_config (api_url client_id client_secret : String) : Tracker :=
  ⟨api_url, client_id, client_secret, [], [], false⟩

/-- Source `Tracker::with_default_headers`, success path; the fallible
`TrackerResult<Self>` form is `Tracker.with_default_headers_result`. -/
def Tracker.with_default_headers (t : Tracker) : Tracker :=
  { t with
    headers :=
      headerInsert
        (headerInsert
          (headerInsert t.headers "Content-Type" "application/json")
          "openpanel-client-id" t.client_id)
        "openpanel-client-secret" t.client_secret }

/-- Source `Tracker::with_header`, success path; the fallible
`TrackerResult<Self>` form is `Tracker.with_header_result`. -/
def Tracker.with_header (t : Tracker) (key value : String) : Tracker :=
  { t with headers := headerInsert t.headers key value }

/-- Source `Tracker::with_global_properties`: whole-set replacement. -/
def Tracker.with_global_properties (t : Tracker) (properties : Props) : Tracker :=
  { t with global_props := properties }

/-- Source `Tracker::disable`. -/
def Tracker.disable (t : Tracker) : Tracker :=
  { t with disabled := true }

/-- Source `Tracker::create_properties_with_globals`. -/
def Tracker.create_properties_with_globals (t : Tracker)
    (properties : Option Props) : Props :=
  match properties with
  | some ps => pExtend ps t.global_props
  | none => t.global_props

/-- Source `Tracker::send_request`: refuse when disabled (no transport call),
otherwise perform exactly one transport call with the given envelope. -/
def Tracker.send_request (t : Tracker) (payload : Envelope) : CallResult :=
  if t.disabled then ⟨.error .Disabled, 0⟩ else ⟨.ok payload, 1⟩

/-- The envelope `Tracker::track` builds. -/
def Tracker.trackEnvelope (t : Tracker) (event : String)
    (properties : Option Props) : Envelope :=
  ⟨.Track, .trackBody event (t.create_properties_with_globals properties)⟩

/-- Source `Tracker::track`: evaluate the filter against the merged properties
first, then dispatch. -/
def Tracker.track (t : Tracker) (event : String) (properties : Option Props)
    (filter : Option (Props → Bool)) : CallResult :=
  match filter with
  | some f =>
    if f (t.create_properties_with_globals properties) then ⟨.error .Filtered, 0⟩
    else t.send_request (t.trackEnvelope event properties)
  | none => t.send_request (t.trackEnvelope event properties)

/-- The envelope `Tracker::identify` builds: the user's properties are
replaced by the merged set, the other fields pass through. -/
def Tracker.identifyEnvelope (t : Tracker) (user : IdentifyUser) : Envelope :=
  ⟨.Identify, .identifyBody
    { user with properties := t.create_properties_with_globals (some user.properties) }⟩

/-- Source `Tracker::identify`. -/
def Tracker.identify (t : Tracker) (user : IdentifyUser) : CallResult :=
  t.send_request (t.identifyEnvelope user)

/-- The envelope `Tracker::decrement` builds. -/
def Tracker.decrementEnvelope (t : Tracker) (profile_id property : String)
    (value : Int) : Envelope :=
  ⟨.Decrement, .counterBody profile_id property value⟩

/-- Source `Tracker::decrement`. -/
def Tracker.decrement (t : Tracker) (profile_id property : String)
    (value : Int) : CallResult :=
  t.send_request (t.decrementEnvelope profile_id property value)

/-- The envelope `Tracker::increment` builds. -/
def Tracker.incrementEnvelope (t : Tracker) (profile_id property : String)
    (value : Int) : Envelope :=
  ⟨.Increment, .counterBody profile_id property value⟩

/-- Source `Tracker::increment`. -/
def Tracker.increment (t : Tracker) (profile_id property : String)
    (value : Int) : CallResult :=
  t.send_request (t.incrementEnvelope profile_id property value)

/-- The envelope `Tracker::revenue` builds: merged properties further
extended with `amount` bound to the decimal rendering of the amount,
event name fixed to `"revenue"`, wire kind `Track`. -/
def Tracker.revenueEnvelope (t : Tracker) (amount : Int)
    (properties : Option Props) : Envelope :=
  ⟨.Track, .revenueBody "revenue" amount
    (pExtend (t.create_properties_with_globals properties)
      [("amount", toString amount)])⟩

/-- Source `Tracker::revenue`. -/
def Tracker.revenue (t : Tracker) (amount : Int)
    (properties : Option Props) : CallResult :=
  t.send_request (t.revenueEnvelope amount properties)

/-- Whitespace skipping for the JSON body decoder. -/
def skipWs : List Char → List Char
  | [] => []
  | c :: rest =>
    if c = ' ' ∨ c = '\n' ∨ c = '\t' ∨ c = '\r' then skipWs rest else c :: rest

/-- Decode the remainder of a JSON string literal after its opening
quote, handling the escaped quote and backslash; returns the content and
the remaining input. -/
def parseJStringAux : List Char → Option (List Char × List Char)
  | [] => none
  | '"' :: rest => some ([], rest)
  | '\\' :: c :: rest =>
    if c = '"' ∨ c = '\\' then
      (parseJStringAux rest).map (fun pr => (c :: pr.1, pr.2))
    else none
  | c :: rest => (parseJStringAux rest).map (fun pr => (c :: pr.1, pr.2))

/-- Decode the key/value pairs of a JSON object of strings (fueled). -/
def parsePairs : Nat → List Char → Props → Option Props
  | 0, _, _ => none
  | fuel + 1, cs, acc =>
    match skipWs cs with
    | '"' :: rest1 =>
      match parseJStringAux rest1 with
      | none => none
      | some (key, rest2) =>
        match skipWs rest2 with
        | ':' :: rest3 =>
          match skipWs rest3 with
          | '"' :: rest4 =>
            match parseJStringAux rest4 with
            | none => none
            | some (val, rest5) =>
              match skipWs rest5 with
              | ',' :: rest6 =>
                parsePairs fuel rest6 (hmInsert acc (String.mk key) (String.mk val))
              | '\x7d' :: rest6 =>
                if skipWs rest6 = [] then
                  some (hmInsert acc (String.mk key) (String.mk val))
                else none
              | _ => none
          | _ => none
        | _ => none
    | _ => none

/-- Modelled from the spec and serde_json's contract: decode a JSON
object with string keys and string values, as
`serde_json::from_str::<HashMap<String, String>>` does (duplicate keys
keep the last binding); any other body is a decode failure. -/
def parseStringMap (s : String) : Option Props :=
  match skipWs s.toList with
  | '\x7b' :: rest =>
    match skipWs rest with
    | '\x7d' :: rest1 => if skipWs rest1 = [] then some [] else none
    | _ => parsePairs (s.length + 1) rest []
  | _ => none

/-- Source `Tracker::fetch_device_id`, with the GET transport replaced by the
response body it would read: disabled check first (zero transport
calls), then one transport call, JSON decoding (a malformed body is a
serialization error), and the deviceId lookup whose missing key is
success with the empty string. -/
def Tracker.fetch_device_id (t : Tracker) (body : String) :
    Except TrackerError String × Nat :=
  if t.disabled then (.error .Disabled, 0)
  else
    match parseStringMap body with
    | none => (.error .Serializing, 1)
    | some json =>
      match pLookup json "deviceId" with
      | none => (.ok "", 1)
      | some v => (.ok v, 1)

/-- The result avoids the three declared-but-never-constructed error
variants of `TrackerError`. -/
def noBannedVariant {α : Type} (r : Except TrackerError α) : Prop :=
  r ≠ .error .NotAuthorized ∧ r ≠ .error .TooManyRequests ∧ r ≠ .error .Internal

/-- Characters the http crate accepts in a header name: ASCII
alphanumerics and the token specials (given by code point). -/
def validHeaderNameChar (c : Char) : Bool :=
  c.isLower || c.isUpper || c.isDigit ||
    [33, 35, 36, 37, 38, 39, 42, 43, 45, 46, 94, 95, 96, 124, 126].contains c.toNat

/-- Validity of a header name under `HeaderName::from_str`: nonempty
and made of token characters. -/
def validHeaderName (s : String) : Bool :=
  !s.toList.isEmpty && s.toList.all validHeaderNameChar

/-- Characters the http crate accepts in a header value: tab or any
code point from space upward except delete. -/
def validHeaderValueChar (c : Char) : Bool :=
  c.toNat = 9 || (32 ≤ c.toNat && c.toNat ≠ 127)

/-- Validity of a header value under the `HeaderValue` parse: no
forbidden control characters. -/
def validHeaderValue (s : String) : Bool :=
  s.toList.all validHeaderValueChar

/-- Rust `HeaderMap::insert` through the fallible
`HeaderName::from_str` and `HeaderValue` parses: an invalid name is the
`HeaderName` error, an invalid value the `HeaderValue` error, otherwise
the canonicalised insertion. -/
def headerInsertChecked (hs : Props) (key value : String) :
    Except TrackerError Props :=
  if !validHeaderName key then .error .HeaderName
  else if !validHeaderValue value then .error .HeaderValue
  else .ok (headerInsert hs key value)

/-- Source `Tracker::with_header` with its fallible
`TrackerResult<Self>` signature. -/
def Tracker.with_header_result (t : Tracker) (key value : String) :
    Except TrackerError Tracker :=
  match headerInsertChecked t.headers key value with
  | .error e => .error e
  | .ok hs => .ok { t with headers := hs }

/-- Source `Tracker::with_default_headers` with its fallible
`TrackerResult<Self>` signature: the three inserts in source order,
each able to fail on an invalid name or value. -/
def Tracker.with_default_headers_result (t : Tracker) :
    Except TrackerError Tracker :=
  match headerInsertChecked t.headers "Content-Type" "application/json" with
  | .error e => .error e
  | .ok h1 =>
    match headerInsertChecked h1 "openpanel-client-id" t.client_id with
    | .error e => .error e
    | .ok h2 =>
      match headerInsertChecked h2 "openpanel-client-secret" t.client_secret with
      | .error e => .error e
      | .ok h3 => .ok { t with headers := h3 }

/-- Source `Tracker::try_new_from_env`: a `dotenvy::dotenv()` failure is
the `EnvVar` error, a missing variable the `Env` error, and success
builds the fresh tracker from the three configuration values. -/
def Tracker.try_new_from_env (dotenvOk : Bool) (env : String → Option String) :
    Except TrackerError Tracker :=
  if !dotenvOk then .error .EnvVar
  else
    match env "OPENPANEL_TRACK_URL" with
    | none => .error .Env
    | some api_url =>
      match env "OPENPANEL_CLIENT_ID" with
      | none => .error .Env
      | some client_id =>
        match env "OPENPANEL_CLIENT_SECRET" with
        | none => .error .Env
        | some client_secret =>
          .ok (Tracker.mk_from_config api_url client_id client_secret)

/-- A sample configured tracker with global properties `k ↦ g`, `b ↦ 2`,
used for concrete instances of the claims. -/
def sampleTracker : Tracker :=
  (Tracker.mk_from_config "https://api" "cid" "csec").with_global_properties
    [("k", "g"), ("b", "2")]

/-- A tracker whose globals bind the reserved key "amount". -/
def amountTracker : Tracker :=
  (Tracker.mk_from_config "https://api" "cid" "csec").with_global_properties
    [("amount", "x")]

/-- A tracker whose globals bind "name", matching the claim's identify
instance. -/
def nameTracker : Tracker :=
  (Tracker.mk_from_config "https://api" "cid" "csec").with_global_properties
    [("name", "y")]

/-- A sample identify user whose properties bind "name". -/
def sampleUser : IdentifyUser :=
  ⟨"pid1", "user@example.com", "Ada", "Lovelace", [("name", "x")]⟩

theorem pKeys_nil : pKeys [] = [] := rfl

theorem pKeys_cons (k v : String) (rest : Props) :
    pKeys ((k, v) :: rest) = k :: pKeys rest := rfl

theorem pLookup_hmRemove (m : Props) (k q : String) :
    pLookup (hmRemove m k) q = if q = k then none else pLookup m q := by
  induction m with
  | nil => simp [hmRemove, pLookup]
  | cons e rest ih =>
    obtain ⟨k0, v0⟩ := e
    simp only [hmRemove, pLookup]
    split_ifs with h1 h2 h2 <;> simp_all [pLookup]

theorem pLookup_hmInsert (m : Props) (k v q : String) :
    pLookup (hmInsert m k v) q = if q = k then some v else pLookup m q := by
  by_cases h : q = k
  · simp [hmInsert, pLookup, pLookup_hmRemove, h]
  · simp [hmInsert, pLookup, pLookup_hmRemove, h, Ne.symm h]

theorem pLookup_eq_none_iff (m : Props) (q : String) :
    pLookup m q = none ↔ q ∉ pKeys m := by
  induction m with
  | nil => simp [pLookup, pKeys_nil]
  | cons e rest ih =>
    obtain ⟨k0, v0⟩ := e
    rw [pKeys_cons]
    by_cases h : k0 = q
    · simp [pLookup, h]
    · simp [pLookup, h, ih, Ne.symm h]

theorem pLookup_isSome_iff (m : Props) (q : String) :
    (pLookup m q).isSome ↔ q ∈ pKeys m := by
  rw [Option.isSome_iff_ne_none, ne_eq, pLookup_eq_none_iff, not_not]

theorem pLookup_pExtend (g p : Props) (hg : (pKeys g).Nodup) (q : String) :
    pLookup (pExtend p g) q = (pLookup g q <|> pLookup p q) := by
  induction g generalizing p with
  | nil => simp [pExtend, pLookup]
  | cons e rest ih =>
    obtain ⟨k0, v0⟩ := e
    rw [pKeys_cons, List.nodup_cons] at hg
    rw [pExtend, ih (hmInsert p k0 v0) hg.2]
    by_cases h : q = k0
    · subst h
      have hnone : pLookup rest q = none := (pLookup_eq_none_iff _ _).mpr hg.1
      simp [hnone, pLookup, pLookup_hmInsert]
    · simp [pLookup, pLookup_hmInsert, pLookup_hmRemove, h, Ne.symm h]

/-- C1: `create_properties_with_globals` maps every key bound in the
global set to the global value (global wins on collision); for per-call
and global sets with disjoint keys it is the union of the two with no
key lost; and with no per-call properties it returns the global set
verbatim. -/
theorem merge_policy_correct (t : Tracker) (p : Props)
    (hg : (pKeys t.global_props).Nodup) (k : String) :
    (∀ vg, pLookup t.global_props k = some vg →
      pLookup (t.create_properties_with_globals (some p)) k = some vg) ∧
    ((∀ q ∈ pKeys p, q ∉ pKeys t.global_props) →
      (pLookup (t.create_properties_with_globals (some p)) k
        = (pLookup p k <|> pLookup t.global_props k)) ∧
      ((pLookup (t.create_properties_with_globals (some p)) k).isSome
        ↔ k ∈ pKeys p ∨ k ∈ pKeys t.global_props)) ∧
    t.create_properties_with_globals none = t.global_props := by
  refine ⟨?_, ?_, rfl⟩
  · intro vg hvg
    rw [Tracker.create_properties_with_globals, pLookup_pExtend _ _ hg, hvg]
    rfl
  · intro hdisj
    have hchar := pLookup_pExtend t.global_props p hg k
    have hcomm : pLookup (pExtend p t.global_props) k
        = (pLookup p k <|> pLookup t.global_props k) := by
      rw [hchar]
      cases hp : pLookup p k with
      | none => simp
      | some v =>
        have hkp : k ∈ pKeys p := by
          rw [← pLookup_isSome_iff, hp]; rfl
        have hkg : pLookup t.global_props k = none :=
          (pLookup_eq_none_iff _ _).mpr (hdisj k hkp)
        simp [hkg]
    refine ⟨hcomm, ?_⟩
    rw [Tracker.create_properties_with_globals, hcomm]
    cases hp : pLookup p k with
    | none =>
      simp [pLookup_isSome_iff, (pLookup_eq_none_iff p k).mp hp]
    | some v =>
      have hkp : k ∈ pKeys p := by
        rw [← pLookup_isSome_iff, hp]; rfl
      simp [hkp]

/-- C2: with a filter supplied, `track` fails with `Filtered` and makes
zero transport calls when the filter accepts the merged properties, and
otherwise dispatches the track envelope. -/
theorem track_filter_veto (t : Tracker) (ev : String) (p : Option Props)
    (f : Props → Bool) :
    (f (t.create_properties_with_globals p) = true →
      t.track ev p (some f) = ⟨.error .Filtered, 0⟩) ∧
    (f (t.create_properties_with_globals p) = false →
      t.track ev p (some f) = t.send_request (t.trackEnvelope ev p)) := by
  constructor <;> intro h <;> simp [Tracker.track, h]

/-- C3 counterexample: a disabled tracker still fails with `Filtered`,
not `Disabled`, when a supplied filter vetoes the track event, because
the filter runs before the disabled check of `send_request`. -/
theorem disabled_filter_counterexample :
    (sampleTracker.disable.track "e" none (some fun _ => true)).result
      = .error .Filtered ∧
    (sampleTracker.disable.track "e" none (some fun _ => true)).result
      ≠ .error .Disabled := by
  constructor <;> decide

/-- C3 (amended): a disabled tracker fails every tracking call and the
device-id call with `Disabled` and zero transport calls — except that
`track` with a filter accepting the merged properties fails with
`Filtered` instead (still zero transport calls). -/
theorem disabled_rejects_all (t : Tracker) (h : t.disabled = true)
    (ev : String) (p : Option Props) (u : IdentifyUser) (pid pr : String)
    (v a : Int) (body : String) (f : Props → Bool) :
    t.track ev p none = ⟨.error .Disabled, 0⟩ ∧
    t.identify u = ⟨.error .Disabled, 0⟩ ∧
    t.increment pid pr v = ⟨.error .Disabled, 0⟩ ∧
    t.decrement pid pr v = ⟨.error .Disabled, 0⟩ ∧
    t.revenue a p = ⟨.error .Disabled, 0⟩ ∧
    t.fetch_device_id body = (.error .Disabled, 0) ∧
    (f (t.create_properties_with_globals p) = false →
      t.track ev p (some f) = ⟨.error .Disabled, 0⟩) ∧
    (f (t.create_properties_with_globals p) = true →
      t.track ev p (some f) = ⟨.error .Filtered, 0⟩) := by
  refine ⟨?_, ?_, ?_, ?_, ?_, ?_, ?_, ?_⟩ <;>
    simp [Tracker.track, Tracker.identify, Tracker.increment,
      Tracker.decrement, Tracker.revenue, Tracker.fetch_device_id,
      Tracker.send_request, h]

/-- C4 counterexample: for `revenue` the outgoing properties are not the
caller/global union — the injected decimal "amount" binding overrides
even a global "amount" value. -/
theorem revenue_properties_counterexample :
    (amountTracker.revenueEnvelope 100 none).payloadProps.map
      (fun ps => pLookup ps "amount") = some (some "100") ∧
    pLookup (amountTracker.create_properties_with_globals none) "amount"
      = some "x" ∧
    (amountTracker.revenueEnvelope 100 none).payloadProps
      ≠ some (amountTracker.create_properties_with_globals none) := by
  refine ⟨by decide, by decide, by decide⟩

/-- C4 (amended): the properties field of track and identify envelopes
is the caller/global union with the global value winning on every
collision; for revenue it is that union further overridden at the single
key "amount" by the decimal rendering of the amount. -/
theorem payload_properties_merge (t : Tracker)
    (hg : (pKeys t.global_props).Nodup) (ev : String) (p : Props)
    (u : IdentifyUser) (a : Int) (q : String) :
    ((t.trackEnvelope ev (some p)).payloadProps.map (fun ps => pLookup ps q)
      = some (pLookup t.global_props q <|> pLookup p q)) ∧
    ((t.identifyEnvelope u).payloadProps.map (fun ps => pLookup ps q)
      = some (pLookup t.global_props q <|> pLookup u.properties q)) ∧
    (q ≠ "amount" →
      (t.revenueEnvelope a (some p)).payloadProps.map (fun ps => pLookup ps q)
        = some (pLookup t.global_props q <|> pLookup p q)) ∧
    ((t.revenueEnvelope a (some p)).payloadProps.map
        (fun ps => pLookup ps "amount") = some (some (toString a))) := by
  refine ⟨?_, ?_, ?_, ?_⟩
  · simp [Tracker.trackEnvelope, Envelope.payloadProps,
      Tracker.create_properties_with_globals, pLookup_pExtend _ _ hg]
  · simp [Tracker.identifyEnvelope, Envelope.payloadProps,
      Tracker.create_properties_with_globals, pLookup_pExtend _ _ hg]
  · intro hq
    simp [Tracker.revenueEnvelope, Envelope.payloadProps, pExtend,
      Tracker.create_properties_with_globals, pLookup_hmInsert, hq,
      pLookup_pExtend _ _ hg]
  · simp [Tracker.revenueEnvelope, Envelope.payloadProps, pExtend,
      pLookup_hmInsert]

/-- C5: `revenue` builds a Track-tagged envelope named "revenue" carrying
the amount at the payload top level and the merged properties extended
with "amount" bound to the decimal rendering of the amount; at the
claim's instance the properties contain currency "EUR" and amount
"100". -/
theorem revenue_envelope_correct (t : Tracker) (a : Int) (p : Option Props) :
    (t.revenueEnvelope a p).type.wireTag = "track" ∧
    (t.revenueEnvelope a p).payload
      = .revenueBody "revenue" a
          (pExtend (t.create_properties_with_globals p) [("amount", toString a)]) ∧
    ((t.revenueEnvelope a p).payloadProps.map (fun ps => pLookup ps "amount")
      = some (some (toString a))) ∧
    (∀ q, q ≠ "amount" →
      (t.revenueEnvelope a p).payloadProps.map (fun ps => pLookup ps q)
        = some (pLookup (t.create_properties_with_globals p) q)) ∧
    t.revenue a p = t.send_request (t.revenueEnvelope a p) ∧
    ((sampleTracker.revenueEnvelope 100 (some [("currency", "EUR")])).payloadProps.map
        (fun ps => (pLookup ps "currency", pLookup ps "amount"))
      = some (some "EUR", some "100")) := by
  refine ⟨rfl, rfl, ?_, ?_, rfl, by decide⟩
  · simp [Tracker.revenueEnvelope, Envelope.payloadProps, pExtend, pLookup_hmInsert]
  · intro q hq
    simp [Tracker.revenueEnvelope, Envelope.payloadProps, pExtend, pLookup_hmInsert, hq]

/-- Witness for C5: revenue at the claim's concrete instance,
discharging the non-amount key condition at "currency". -/
theorem revenue_envelope_correct_instance :
    ((sampleTracker.revenueEnvelope 100 (some [("currency", "EUR")])).payloadProps.map
      (fun ps => pLookup ps "currency")
      = some (pLookup (sampleTracker.create_properties_with_globals
          (some [("currency", "EUR")])) "currency")) ∧
    ((sampleTracker.revenueEnvelope 100 (some [("currency", "EUR")])).payloadProps.map
      (fun ps => pLookup ps "amount") = some (some (toString (100 : Int)))) := by
  constructor
  · exact (revenue_envelope_correct sampleTracker 100
      (some [("currency", "EUR")])).2.2.2.1 "currency" (by decide)
  · exact (revenue_envelope_correct sampleTracker 100
      (some [("currency", "EUR")])).2.2.1

/-- C6: on a non-disabled tracker, a response body decoding to a string
map with a deviceId key yields that value, one without the key succeeds
with the empty string, and a malformed body fails with the
serialization error (one transport call in each case). -/
theorem fetch_device_id_contract (t : Tracker) (h : t.disabled = false)
    (body : String) :
    (∀ json v, parseStringMap body = some json →
      pLookup json "deviceId" = some v →
      t.fetch_device_id body = (.ok v, 1)) ∧
    (∀ json, parseStringMap body = some json →
      pLookup json "deviceId" = none →
      t.fetch_device_id body = (.ok "", 1)) ∧
    (parseStringMap body = none →
      t.fetch_device_id body = (.error .Serializing, 1)) := by
  refine ⟨?_, ?_, ?_⟩ <;> intros <;> simp_all [Tracker.fetch_device_id]

/-- C7: `identify` builds an identify-tagged envelope whose properties
are the user's merged with the globals (global wins on collision), whose
other payload fields pass through unchanged, and whose serialized field
names are the camelCased `profileId`, `email`, `firstName`, `lastName`,
`properties`. -/
theorem identify_envelope_correct (t : Tracker) (u : IdentifyUser)
    (hg : (pKeys t.global_props).Nodup) :
    (t.identifyEnvelope u).type.wireTag = "identify" ∧
    (t.identifyEnvelope u).payload
      = .identifyBody ⟨u.profile_id, u.email, u.first_name, u.last_name,
          t.create_properties_with_globals (some u.properties)⟩ ∧
    (∀ q, (t.identifyEnvelope u).payloadProps.map (fun ps => pLookup ps q)
      = some (pLookup t.global_props q <|> pLookup u.properties q)) ∧
    t.identify u = t.send_request (t.identifyEnvelope u) ∧
    IdentifyUser.serializedKeys
      = ["profileId", "email", "firstName", "lastName", "properties"] := by
  refine ⟨rfl, rfl, ?_, rfl, by decide⟩
  intro q
  simp [Tracker.identifyEnvelope, Envelope.payloadProps,
    Tracker.create_properties_with_globals, pLookup_pExtend _ _ hg]

/-- C8: `increment` and `decrement` build exactly the
`{profileId, property, value}` payload under the corresponding wire tag,
with the caller's value passed through unchanged (no negation) and no
property merge. -/
theorem increment_decrement_payload_exact (t : Tracker) (pid pr : String) (v : Int) :
    t.incrementEnvelope pid pr v = ⟨.Increment, .counterBody pid pr v⟩ ∧
    t.decrementEnvelope pid pr v = ⟨.Decrement, .counterBody pid pr v⟩ ∧
    (t.incrementEnvelope pid pr v).type.wireTag = "increment" ∧
    (t.decrementEnvelope pid pr v).type.wireTag = "decrement" ∧
    (t.incrementEnvelope pid pr v).payloadProps = none ∧
    (t.decrementEnvelope pid pr v).payloadProps = none ∧
    t.increment pid pr v = t.send_request (t.incrementEnvelope pid pr v) ∧
    t.decrement pid pr v = t.send_request (t.decrementEnvelope pid pr v) :=
  ⟨rfl, rfl, rfl, rfl, rfl, rfl, rfl, rfl⟩

/-- C9: header assembly commutes for distinct (canonicalised) header
names, a later write to the same name wins, and the default header set
binds exactly the content type, the client id and the client secret,
leaving every other name untouched. -/
theorem header_assembly_correct (t : Tracker) (k1 v1 k2 v2 k v v' q : String) :
    (lowerName k1 ≠ lowerName k2 →
      pLookup ((t.with_header k1 v1).with_header k2 v2).headers q
        = pLookup ((t.with_header k2 v2).with_header k1 v1).headers q) ∧
    pLookup ((t.with_header k v).with_header k v').headers (lowerName k)
      = some v' ∧
    pLookup (t.with_default_headers).headers "content-type"
      = some "application/json" ∧
    pLookup (t.with_default_headers).headers "openpanel-client-id"
      = some t.client_id ∧
    pLookup (t.with_default_headers).headers "openpanel-client-secret"
      = some t.client_secret ∧
    (q ≠ "content-type" → q ≠ "openpanel-client-id" →
      q ≠ "openpanel-client-secret" →
      pLookup (t.with_default_headers).headers q = pLookup t.headers q) ∧
    (lowerName k ≠ "content-type" → lowerName k ≠ "openpanel-client-id" →
      lowerName k ≠ "openpanel-client-secret" →
      pLookup ((t.with_header k v).with_default_headers).headers q
        = pLookup ((t.with_default_headers).with_header k v).headers q) := by
  have hct : lowerName "Content-Type" = "content-type" := by decide
  have hcid : lowerName "openpanel-client-id" = "openpanel-client-id" := by decide
  have hcsec : lowerName "openpanel-client-secret" = "openpanel-client-secret" := by
    decide
  refine ⟨?_, ?_, ?_, ?_, ?_, ?_, ?_⟩
  · intro hne
    simp only [Tracker.with_header, headerInsert, pLookup_hmInsert]
    split_ifs <;> simp_all
  · simp [Tracker.with_header, headerInsert, pLookup_hmInsert]
  · simp only [Tracker.with_default_headers, headerInsert, pLookup_hmInsert,
      hct, hcid, hcsec]
    split_ifs <;> simp_all
  · simp only [Tracker.with_default_headers, headerInsert, pLookup_hmInsert,
      hct, hcid, hcsec]
    split_ifs <;> simp_all
  · simp only [Tracker.with_default_headers, headerInsert, pLookup_hmInsert,
      hct, hcid, hcsec]
    split_ifs <;> simp_all
  · intro h1 h2 h3
    simp only [Tracker.with_default_headers, headerInsert, pLookup_hmInsert,
      hct, hcid, hcsec]
    split_ifs <;> simp_all
  · intro h1 h2 h3
    simp only [Tracker.with_default_headers, Tracker.with_header, headerInsert,
      pLookup_hmInsert, hct, hcid, hcsec]
    split_ifs <;> simp_all

/-- C10: no public operation — construction, the fallible builder
calls, or any tracking or device-id call — ever fails with
`NotAuthorized`, `TooManyRequests` or `Internal`; those variants are
declared but unreachable. -/
theorem unreachable_error_variants (dotenvOk : Bool)
    (env : String → Option String) (t : Tracker) (key value ev : String)
    (p : Option Props) (f : Option (Props → Bool)) (u : IdentifyUser)
    (pid pr : String) (v a : Int) (body : String) :
    noBannedVariant (Tracker.try_new_from_env dotenvOk env) ∧
    noBannedVariant (t.with_default_headers_result) ∧
    noBannedVariant (t.with_header_result key value) ∧
    noBannedVariant (t.track ev p f).result ∧
    noBannedVariant (t.identify u).result ∧
    noBannedVariant (t.increment pid pr v).result ∧
    noBannedVariant (t.decrement pid pr v).result ∧
    noBannedVariant (t.revenue a p).result ∧
    noBannedVariant (t.fetch_device_id body).1 := by
  have hsend : ∀ e0 : Envelope, noBannedVariant (t.send_request e0).result := by
    intro e0
    unfold Tracker.send_request noBannedVariant
    split <;> simp
  have hins : ∀ (hs : Props) (k vv : String) (e : TrackerError),
      headerInsertChecked hs k vv = .error e →
      e = .HeaderName ∨ e = .HeaderValue := by
    intro hs k vv e h
    unfold headerInsertChecked at h
    split at h
    · exact Or.inl (Except.error.inj h).symm
    · split at h
      · exact Or.inr (Except.error.inj h).symm
      · simp at h
  refine ⟨?_, ?_, ?_, ?_, hsend _, hsend _, hsend _, hsend _, ?_⟩
  · unfold Tracker.try_new_from_env noBannedVariant
    split
    · simp
    · split
      · simp
      · split
        · simp
        · split <;> simp
  · unfold Tracker.with_default_headers_result
    rcases h1 : headerInsertChecked t.headers "Content-Type" "application/json"
      with e1 | hs1 <;> simp only [h1]
    · rcases hins _ _ _ _ h1 with rfl | rfl <;> simp [noBannedVariant]
    · rcases h2 : headerInsertChecked hs1 "openpanel-client-id" t.client_id
        with e2 | hs2 <;> simp only [h2]
      · rcases hins _ _ _ _ h2 with rfl | rfl <;> simp [noBannedVariant]
      · rcases h3 : headerInsertChecked hs2 "openpanel-client-secret" t.client_secret
          with e3 | hs3 <;> simp only [h3]
        · rcases hins _ _ _ _ h3 with rfl | rfl <;> simp [noBannedVariant]
        · simp [noBannedVariant]
  · unfold Tracker.with_header_result
    rcases h1 : headerInsertChecked t.headers key value with e1 | hs1 <;>
      simp only [h1]
    · rcases hins _ _ _ _ h1 with rfl | rfl <;> simp [noBannedVariant]
    · simp [noBannedVariant]
  · cases f with
    | none => exact hsend _
    | some f0 =>
      by_cases hf : f0 (t.create_properties_with_globals p)
      · simp [Tracker.track, hf, noBannedVariant]
      · have hf2 : f0 (t.create_properties_with_globals p) = false := by
          simpa using hf
        simpa [Tracker.track, hf2] using hsend (t.trackEnvelope ev p)
  · unfold Tracker.fetch_device_id noBannedVariant
    split
    · simp
    · split <;> [simp; split <;> simp]

/-- Witness for C1 at concrete property sets: global wins on the shared
key "k", a disjoint per-call set is unioned losslessly, and `none`
returns the globals verbatim. -/
theorem merge_policy_correct_instance :
    pLookup (sampleTracker.create_properties_with_globals
      (some [("k", "l"), ("a", "1")])) "k" = some "g" ∧
    pLookup (sampleTracker.create_properties_with_globals
      (some [("a", "1")])) "a"
      = (pLookup [("a", "1")] "a" <|> pLookup sampleTracker.global_props "a") ∧
    sampleTracker.create_properties_with_globals none
      = sampleTracker.global_props := by
  refine ⟨?_, ?_, ?_⟩
  · exact (merge_policy_correct sampleTracker [("k", "l"), ("a", "1")]
      (by decide) "k").1 "g" (by decide)
  · exact ((merge_policy_correct sampleTracker [("a", "1")]
      (by decide) "a").2.1 (by decide)).1
  · exact (merge_policy_correct sampleTracker [] (by decide) "x").2.2

/-- Witness for C2 at a concrete tracker: a filter that accepts the
merged set yields `Filtered` with zero transport calls, a rejecting one
dispatches. -/
theorem track_filter_veto_instance :
    sampleTracker.track "e" (some [("a", "1")])
      (some fun ps => (pLookup ps "k").isSome)
      = ⟨.error .Filtered, 0⟩ ∧
    sampleTracker.track "e" (some [("a", "1")])
      (some fun ps => (pLookup ps "zz").isSome)
      = sampleTracker.send_request
          (sampleTracker.trackEnvelope "e" (some [("a", "1")])) := by
  constructor
  · exact (track_filter_veto sampleTracker "e" (some [("a", "1")])
      (fun ps => (pLookup ps "k").isSome)).1 (by decide)
  · exact (track_filter_veto sampleTracker "e" (some [("a", "1")])
      (fun ps => (pLookup ps "zz").isSome)).2 (by decide)

/-- Witness for the amended C3 at a concrete disabled tracker. -/
theorem disabled_rejects_all_instance :
    sampleTracker.disable.track "e" none none = ⟨.error .Disabled, 0⟩ ∧
    sampleTracker.disable.fetch_device_id "\x7b\x7d" = (.error .Disabled, 0) ∧
    sampleTracker.disable.track "e" none (some fun _ => false)
      = ⟨.error .Disabled, 0⟩ ∧
    sampleTracker.disable.track "e" none (some fun _ => true)
      = ⟨.error .Filtered, 0⟩ := by
  refine ⟨?_, ?_, ?_, ?_⟩
  · exact (disabled_rejects_all sampleTracker.disable rfl "e" none
      ⟨"p", "e", "f", "l", []⟩ "pi" "pr" 1 1 "\x7b\x7d" (fun _ => false)).1
  · exact (disabled_rejects_all sampleTracker.disable rfl "e" none
      ⟨"p", "e", "f", "l", []⟩ "pi" "pr" 1 1 "\x7b\x7d" (fun _ => false)).2.2.2.2.2.1
  · exact (disabled_rejects_all sampleTracker.disable rfl "e" none
      ⟨"p", "e", "f", "l", []⟩ "pi" "pr" 1 1 "\x7b\x7d" (fun _ => false)).2.2.2.2.2.2.1 rfl
  · exact (disabled_rejects_all sampleTracker.disable rfl "e" none
      ⟨"p", "e", "f", "l", []⟩ "pi" "pr" 1 1 "\x7b\x7d" (fun _ => true)).2.2.2.2.2.2.2 rfl

/-- Witness for the amended C4 at concrete inputs. -/
theorem payload_properties_merge_instance :
    ((sampleTracker.trackEnvelope "e" (some [("k", "l")])).payloadProps.map
      (fun ps => pLookup ps "k")
      = some (pLookup sampleTracker.global_props "k" <|> pLookup [("k", "l")] "k")) ∧
    ((sampleTracker.revenueEnvelope 7 (some [("c", "EUR")])).payloadProps.map
      (fun ps => pLookup ps "c")
      = some (pLookup sampleTracker.global_props "c" <|> pLookup [("c", "EUR")] "c")) ∧
    ((sampleTracker.revenueEnvelope 7 (some [("c", "EUR")])).payloadProps.map
      (fun ps => pLookup ps "amount") = some (some "7")) := by
  refine ⟨?_, ?_, ?_⟩
  · exact (payload_properties_merge sampleTracker (by decide) "e" [("k", "l")]
      ⟨"p", "e", "f", "l", []⟩ 7 "k").1
  · exact (payload_properties_merge sampleTracker (by decide) "e" [("c", "EUR")]
      ⟨"p", "e", "f", "l", []⟩ 7 "c").2.2.1 (by decide)
  · exact (payload_properties_merge sampleTracker (by decide) "e" [("c", "EUR")]
      ⟨"p", "e", "f", "l", []⟩ 7 "c").2.2.2

/-- Witness for C6 at the claim's concrete bodies. -/
theorem fetch_device_id_contract_instance :
    sampleTracker.fetch_device_id "\x7b\"deviceId\":\"abc\"\x7d" = (.ok "abc", 1) ∧
    sampleTracker.fetch_device_id "\x7b\x7d" = (.ok "", 1) ∧
    sampleTracker.fetch_device_id "not json" = (.error .Serializing, 1) := by
  refine ⟨?_, ?_, ?_⟩
  · exact (fetch_device_id_contract sampleTracker rfl _).1
      [("deviceId", "abc")] "abc" (by decide) (by decide)
  · exact (fetch_device_id_contract sampleTracker rfl _).2.1 [] (by decide)
      (by decide)
  · exact (fetch_device_id_contract sampleTracker rfl _).2.2 (by decide)

/-- Witness for C7: user properties name ↦ x against globals name ↦ y
merge to name ↦ y (global wins). -/
theorem identify_envelope_correct_instance :
    (nameTracker.identifyEnvelope sampleUser).payloadProps.map
      (fun ps => pLookup ps "name") = some (some "y") := by
  have h := (identify_envelope_correct nameTracker sampleUser (by decide)).2.2.1 "name"
  rw [h]
  decide

/-- Witness for C9 at concrete header names and values. -/
theorem header_assembly_correct_instance :
    pLookup ((sampleTracker.with_header "X-A" "1").with_header "X-B" "2").headers
      "x-a"
      = pLookup ((sampleTracker.with_header "X-B" "2").with_header "X-A" "1").headers
        "x-a" ∧
    pLookup ((sampleTracker.with_header "X-A" "1").with_header "X-A" "2").headers
      (lowerName "X-A") = some "2" ∧
    pLookup (sampleTracker.with_default_headers).headers "content-type"
      = some "application/json" ∧
    pLookup (sampleTracker.with_default_headers).headers "x-a"
      = pLookup sampleTracker.headers "x-a" ∧
    pLookup ((sampleTracker.with_header "X-A" "1").with_default_headers).headers
      "x-a"
      = pLookup ((sampleTracker.with_default_headers).with_header "X-A" "1").headers
        "x-a" := by
  refine ⟨?_, ?_, ?_, ?_, ?_⟩
  · exact (header_assembly_correct sampleTracker "X-A" "1" "X-B" "2" "z" "1" "2"
      "x-a").1 (by decide)
  · exact (header_assembly_correct sampleTracker "X-A" "1" "X-B" "2" "X-A" "1" "2"
      "x-a").2.1
  · exact (header_assembly_correct sampleTracker "X-A" "1" "X-B" "2" "z" "1" "2"
      "x-a").2.2.1
  · exact (header_assembly_correct sampleTracker "X-A" "1" "X-B" "2" "z" "1" "2"
      "x-a").2.2.2.2.2.1 (by decide) (by decide) (by decide)
  · exact (header_assembly_correct sampleTracker "X-A" "1" "X-B" "2" "X-A" "1" "2"
      "x-a").2.2.2.2.2.2 (by decide) (by decide) (by decide)

end OpenPanel
